import Mathlib

/-
Verification of the rating-engine logic of an NFL schedule/elo library.

The embedding below translates, from the source:
  - Schedule.add_rest          (core/schedule.py, lines 274-299)
  - Schedule.next_init_elo     (core/schedule.py, lines 350-394)
  - Schedule.next_elo_prob     (core/schedule.py, lines 396-450)
  - Schedule.next_elo_delta    (core/schedule.py, lines 452-489)
  - the elo-walk loop of Schedule.__init__ (lines 65-68)
  - the season-boundary QB regression rule of get_qb_elos
    (data/qb_elos.py, lines 156-165)

Numbers that the source keeps in pandas/numpy float cells are modelled by
the type NpFloat: an exact real payload plus the three non-finite float
states (positive infinity, negative infinity, NaN).  Arithmetic on NpFloat
follows the numpy conventions that matter here: NaN propagates through
every operation, comparisons against NaN are false, a nonzero number
divided by zero gives a signed infinity, and zero divided by zero gives
NaN.  Rounding of finite values is not modelled; finite arithmetic is
exact.

Dataframe cells that start as None (the derived elo columns created by
add_elo_columns) are modelled as Option NpFloat, with none for a cell that
was never written.  pd.isnull is true on such a cell exactly when it is
none or holds NaN.
-/

/-- Row of the schedule dataframe as seen by Schedule.add_rest: season,
inferred week, the two (full) team names, and the rested flag cells, which
do not exist before add_rest runs (modelled as none). -/
structure RRow where
  season : Int := 0
  week : Nat := 1
  team1 : String := ""
  team2 : String := ""
  rested1 : Option Bool := none
  rested2 : Option Bool := none
deriving Repr, DecidableEq

/-- Teams appearing in the matchups of a given (season-agnostic) week:
the flattened team1/team2 values of every row whose week column matches.
Mirrors `self.schedule.loc[self.schedule.week == week, ["team1","team2"]]
.values.flatten().tolist()` -- note that the source does NOT filter by
season here. -/
def teamsOfWeek (sched : List RRow) (w : Nat) : List String :=
  (sched.filter (fun g => g.week = w)).flatMap (fun g => [g.team1, g.team2])

/-- Largest week value in the schedule (`self.schedule.week.max()`). -/
def maxWeekR (sched : List RRow) : Nat :=
  (sched.map (fun g => g.week)).foldr max 0

/-- One iteration of the add_rest loop body for week w: teams of week w
that are absent from week w-1 get their rested flag cells set to True on
their week-w rows. -/
def restWeekUpdate (acc : List RRow) (w : Nat) : List RRow :=
  let prev := teamsOfWeek acc (w - 1)
  let now := teamsOfWeek acc w
  let rested := now.filter (fun t => decide (t ∉ prev))
  acc.map (fun g =>
    let g1 := if g.week = w ∧ g.team1 ∈ rested then { g with rested1 := some true } else g
    if g1.week = w ∧ g1.team2 ∈ rested then { g1 with rested2 := some true } else g1)

/-- The `for week in range(2, self.schedule.week.max() + 1)` loop of
add_rest. -/
def add_rest_loop (sched : List RRow) : List RRow :=
  (List.range' 2 (maxWeekR sched - 1)).foldl restWeekUpdate sched

/-- Final normalization of a rested cell, translating
`.astype(bool).fillna(False)`: astype(bool) runs first and converts a
missing value (NaN) to True, because bool(nan) is True in Python; the
following fillna(False) then finds no missing values left and changes
nothing.  A cell that was never assigned therefore ends up True. -/
def boolCast (c : Option Bool) : Bool :=
  match c with
  | some b => b
  | none => true

/-- Schedule.add_rest: run the week loop, then normalize both rested
columns. -/
def add_rest (sched : List RRow) : List RRow :=
  (add_rest_loop sched).map (fun g =>
    { g with rested1 := some (boolCast g.rested1), rested2 := some (boolCast g.rested2) })

/-- Model of a numpy/pandas float value: an exact real payload or one of
the non-finite states.  Rounding of finite arithmetic is not modelled. -/
inductive NpFloat where
  | num (x : Real)
  | inf
  | neginf
  | nan

/-- Float negation. -/
def NpFloat.neg : NpFloat → NpFloat
  | .num x => .num (-x)
  | .inf => .neginf
  | .neginf => .inf
  | .nan => .nan

/-- Float addition: NaN propagates, infinities of opposite sign give NaN. -/
def NpFloat.add : NpFloat → NpFloat → NpFloat
  | .nan, _ => .nan
  | _, .nan => .nan
  | .num x, .num y => .num (x + y)
  | .num _, .inf => .inf
  | .num _, .neginf => .neginf
  | .inf, .num _ => .inf
  | .neginf, .num _ => .neginf
  | .inf, .inf => .inf
  | .neginf, .neginf => .neginf
  | .inf, .neginf => .nan
  | .neginf, .inf => .nan

/-- Float multiplication: NaN propagates, zero times infinity gives NaN. -/
noncomputable def NpFloat.mul : NpFloat → NpFloat → NpFloat
  | .nan, _ => .nan
  | _, .nan => .nan
  | .num x, .num y => .num (x * y)
  | .num x, .inf => if x = 0 then .nan else if 0 < x then .inf else .neginf
  | .num x, .neginf => if x = 0 then .nan else if 0 < x then .neginf else .inf
  | .inf, .num y => if y = 0 then .nan else if 0 < y then .inf else .neginf
  | .neginf, .num y => if y = 0 then .nan else if 0 < y then .neginf else .inf
  | .inf, .inf => .inf
  | .inf, .neginf => .neginf
  | .neginf, .inf => .neginf
  | .neginf, .neginf => .inf

/-- Float division: NaN propagates, nonzero over zero gives a signed
infinity, zero over zero gives NaN, finite over infinite gives zero. -/
noncomputable def NpFloat.div : NpFloat → NpFloat → NpFloat
  | .nan, _ => .nan
  | _, .nan => .nan
  | .num x, .num y =>
      if y = 0 then (if x = 0 then .nan else if 0 < x then .inf else .neginf)
      else .num (x / y)
  | .num _, .inf => .num 0
  | .num _, .neginf => .num 0
  | .inf, .num y => if 0 ≤ y then .inf else .neginf
  | .neginf, .num y => if 0 ≤ y then .neginf else .inf
  | .inf, _ => .nan
  | .neginf, _ => .nan

/-- Float subtraction, as addition of the negation. -/
noncomputable def NpFloat.sub (a b : NpFloat) : NpFloat := a.add b.neg

/-- Float absolute value. -/
def NpFloat.abs : NpFloat → NpFloat
  | .num x => .num |x|
  | .inf => .inf
  | .neginf => .inf
  | .nan => .nan

/-- np.log on a float: positive argument gives the real logarithm, zero
gives negative infinity, negative gives NaN. -/
noncomputable def NpFloat.log : NpFloat → NpFloat
  | .num x => if 0 < x then .num (Real.log x) else if x = 0 then .neginf else .nan
  | .inf => .inf
  | .neginf => .nan
  | .nan => .nan

/-- Ten raised to a float power, `10 ** x`. -/
noncomputable def NpFloat.tenPow : NpFloat → NpFloat
  | .num x => .num ((10 : Real) ^ x)
  | .inf => .inf
  | .neginf => .num 0
  | .nan => .nan

/-- pd.isnull on a float value: true exactly for NaN. -/
def NpFloat.isnull : NpFloat → Bool
  | .nan => true
  | _ => false

/-- The float comparison `a > b`: false whenever NaN is involved. -/
noncomputable def NpFloat.fgt : NpFloat → NpFloat → Bool
  | .nan, _ => false
  | _, .nan => false
  | .num x, .num y => if y < x then true else false
  | .num _, .inf => false
  | .num _, .neginf => true
  | .inf, .num _ => true
  | .neginf, .num _ => false
  | .inf, .inf => false
  | .inf, .neginf => true
  | .neginf, _ => false

/-- The float comparison `a == b`: false whenever NaN is involved. -/
noncomputable def NpFloat.feq : NpFloat → NpFloat → Bool
  | .nan, _ => false
  | _, .nan => false
  | .num x, .num y => if x = y then true else false
  | .inf, .inf => true
  | .neginf, .neginf => true
  | _, _ => false

noncomputable instance : Neg NpFloat := ⟨NpFloat.neg⟩
noncomputable instance : Add NpFloat := ⟨NpFloat.add⟩
noncomputable instance : Sub NpFloat := ⟨NpFloat.sub⟩
noncomputable instance : Mul NpFloat := ⟨NpFloat.mul⟩
noncomputable instance : Div NpFloat := ⟨NpFloat.div⟩

/-- Python float(b) of a bool. -/
def boolFloat (b : Bool) : Real := if b then 1 else 0

/-- Row of the schedule dataframe as seen by the elo steps.  score and
travel columns are float columns (a missing score is NaN); the derived elo
columns created by add_elo_columns start as None, modelled by none. -/
structure Row where
  season : Int := 0
  weekNumeric : Bool := true
  team1_abbrev : String := ""
  team2_abbrev : String := ""
  score1 : NpFloat := .nan
  score2 : NpFloat := .nan
  travel1 : NpFloat := .num 0
  travel2 : NpFloat := .num 0
  rested1 : Bool := false
  rested2 : Bool := false
  elo1_pre : Option NpFloat := none
  elo2_pre : Option NpFloat := none
  elo_diff : Option NpFloat := none
  point_spread : Option NpFloat := none
  elo_prob1 : Option NpFloat := none
  elo_prob2 : Option NpFloat := none
  score_diff : Option NpFloat := none
  forecast_delta : Option NpFloat := none
  mov_multiplier : Option NpFloat := none
  elo_delta : Option NpFloat := none
  elo1_post : Option NpFloat := none
  elo2_post : Option NpFloat := none

/-- pd.isnull on a derived cell: true when the cell was never written
(None) or holds NaN. -/
def cellNull (c : Option NpFloat) : Bool :=
  match c with
  | none => true
  | some v => v.isnull

/-- Value of a derived cell when it is read for arithmetic.  The walk
only reads cells it has already written; NaN stands for the never-written
case, which does not occur along the walk. -/
def cellVal (c : Option NpFloat) : NpFloat :=
  match c with
  | some v => v
  | none => .nan

/-- Last row before the current one that involves the given team:
`prev = prev.loc[(prev.team1_abbrev == team) | (prev.team2_abbrev == team)]`
followed by `prev.iloc[-1]`. -/
def prevGameFor (team : String) (prior : List Row) : Option Row :=
  (prior.filter (fun g => decide (g.team1_abbrev = team ∨ g.team2_abbrev = team))).getLast?

/-- The post-game rating cell of the side of the given team in a row
(`prev_num = 1 if prev["team1_abbrev"] == team else 2`). -/
def sidePost (g : Row) (team : String) : Option NpFloat :=
  if g.team1_abbrev = team then g.elo1_post else g.elo2_post

/-- The pre-game rating cell of the side of the given team in a row. -/
def sidePre (g : Row) (team : String) : Option NpFloat :=
  if g.team1_abbrev = team then g.elo1_pre else g.elo2_pre

/-- The pre-game rating Schedule.next_init_elo computes for one team of
the current row, from the list of rows that precede it.  Mirrors lines
361-389 of core/schedule.py: no prior row gives init_elo; a prior row
whose post-game rating is committed carries it forward, with regression
toward 1505 when the prior row is exactly one season back and a reset to
init_elo when it is more than one season back; a prior row that is still
unplayed has its pre-game rating carried forward unchanged. -/
noncomputable def next_init_elo_team (init_elo regress_pct : Real) (prior : List Row)
    (curSeason : Int) (team : String) : NpFloat :=
  match prevGameFor team prior with
  | none => .num init_elo
  | some g =>
      if ¬ cellNull (sidePost g team) then
        let p := cellVal (sidePost g team)
        if g.season = curSeason - 1 then p + (.num 1505 - p) * .num regress_pct
        else if g.season < curSeason - 1 then .num init_elo
        else p
      else cellVal (sidePre g team)

/-- Schedule.next_init_elo applied to the current row: writes both
pre-game rating cells. -/
noncomputable def next_init_elo (init_elo regress_pct : Real) (prior : List Row)
    (r : Row) : Row :=
  { r with
    elo1_pre := some (next_init_elo_team init_elo regress_pct prior r.season r.team1_abbrev)
    elo2_pre := some (next_init_elo_team init_elo regress_pct prior r.season r.team2_abbrev) }

/-- Schedule.next_elo_prob applied to the current row: accumulates the
rating differential (homefield, travel, rest), scales it by the playoff
factor for a non-numeric week tag, and writes the point spread and both
win probabilities. -/
noncomputable def next_elo_prob (homefield travel rested playoffs elo2points : Real)
    (r : Row) : Row :=
  let d0 := cellVal r.elo1_pre - cellVal r.elo2_pre
  let d1 := d0 + .num homefield
  let d2 := d1 + .num travel * (r.travel2 - r.travel1)
  let d3 := if r.rested1 then d2 + .num rested else d2
  let d4 := if r.rested2 then d3 - .num rested else d3
  let d5 := if ¬ r.weekNumeric then d4 * .num playoffs else d4
  let p1 := .num 1 / ((d5 / .num (-400)).tenPow + .num 1)
  { r with
    elo_diff := some d5
    point_spread := some (d5 * .num elo2points)
    elo_prob1 := some p1
    elo_prob2 := some (.num 1 - p1) }

/-- Modelled from the claim wording (not from the source): the adjusted
differential that results if the playoff factor is applied to the raw
pre-homefield differential rating1 - rating2 before the homefield, travel
and rest terms are added.  Used only to compare the claim against the
source computation. -/
noncomputable def claimedEloDiff (homefield travel rested playoffs : Real)
    (r : Row) : NpFloat :=
  let raw := cellVal r.elo1_pre - cellVal r.elo2_pre
  let scaled := if ¬ r.weekNumeric then raw * .num playoffs else raw
  let d1 := scaled + .num homefield
  let d2 := d1 + .num travel * (r.travel2 - r.travel1)
  let d3 := if r.rested1 then d2 + .num rested else d2
  if r.rested2 then d3 - .num rested else d3

/-- Schedule.next_elo_delta applied to the current row: when the home
score cell is not null, writes the score differential, forecast delta,
margin-of-victory multiplier (substituting 0.0 when it is null), rating
delta and both post-game ratings; otherwise leaves the row unchanged. -/
noncomputable def next_elo_delta (k_factor : Real) (r : Row) : Row :=
  if r.score1.isnull then r
  else
    let sd := r.score1 - r.score2
    let f := .num (boolFloat (NpFloat.fgt sd (.num 0)))
      + .num 0.5 * .num (boolFloat (NpFloat.feq sd (.num 0)))
      - cellVal r.elo_prob1
    let mov0 := (sd.abs + .num 1).log * .num 2.2
      / (cellVal r.elo_diff * .num 0.001 + .num 2.2)
    let mov := if mov0.isnull then .num 0 else mov0
    let delta := f * mov * .num k_factor
    { r with
      score_diff := some sd
      forecast_delta := some f
      mov_multiplier := some mov
      elo_delta := some delta
      elo1_post := some (cellVal r.elo1_pre + delta)
      elo2_post := some (cellVal r.elo2_pre - delta) }

/-- One pass of the elo loop body for the current row: next_init_elo,
next_elo_prob, next_elo_delta. -/
noncomputable def processRow (init_elo regress_pct homefield travel rested playoffs
    elo2points k_factor : Real) (prior : List Row) (r : Row) : Row :=
  next_elo_delta k_factor
    (next_elo_prob homefield travel rested playoffs elo2points
      (next_init_elo init_elo regress_pct prior r))

/-- The `while self.schedule.elo1_pre.isnull().any()` loop of
Schedule.init, which each iteration fills exactly the first row whose
pre-game rating is still null: next_init_elo and next_elo_prob pick the
first row with a null cell, and next_elo_delta picks the last row with a
computed probability and a null delta, which is that same row.  The rows
are therefore processed once each, in order, every row seeing the fully
processed rows before it. -/
noncomputable def run_elo_aux (init_elo regress_pct homefield travel rested playoffs
    elo2points k_factor : Real) (prior : List Row) : List Row → List Row
  | [] => []
  | r :: rest =>
      let r1 := processRow init_elo regress_pct homefield travel rested playoffs
        elo2points k_factor prior r
      r1 :: run_elo_aux init_elo regress_pct homefield travel rested playoffs
        elo2points k_factor (prior ++ [r1]) rest

/-- The full elo walk over a schedule, starting with no processed rows. -/
noncomputable def run_elo (init_elo regress_pct homefield travel rested playoffs
    elo2points k_factor : Real) (sched : List Row) : List Row :=
  run_elo_aux init_elo regress_pct homefield travel rested playoffs
    elo2points k_factor [] sched

/-- The pre-game QB value rule of get_qb_elos (data/qb_elos.py, lines
156-165) for a quarterback with a previous appearance: carry the last
post-game value forward and regress it toward the league-average value
exactly when the current season is strictly greater than the season of
the previous appearance and the count of prior appearances is between 10
and 100 inclusive. -/
noncomputable def qb_pre_value (regress_pct : Real) (season prevSeason : Int)
    (prevCount : Nat) (prevPost avgValue : Real) : Real :=
  if prevSeason < season ∧ 10 ≤ prevCount ∧ prevCount ≤ 100 then
    (1 - regress_pct) * prevPost + regress_pct * avgValue
  else prevPost

/-- Real-level value of the adjusted differential computed by
next_elo_prob from finite inputs. -/
def eloDiffVal (homefield travel rested playoffs p1 p2 t1 t2 : Real)
    (r1 r2 wk : Bool) : Real :=
  let d2 := p1 - p2 + homefield + travel * (t2 - t1)
  let d3 := if r1 then d2 + rested else d2
  let d4 := if r2 then d3 - rested else d3
  if ¬ wk then d4 * playoffs else d4

def c1row : Row :=
  { team1_abbrev := "GNB", team2_abbrev := "CHI", season := 2020,
    elo1_post := some (.num 1400) }

def c2sched : List RRow :=
  [ { season := 2020, week := 1, team1 := "Seattle Seahawks", team2 := "St. Louis Rams" },
    { season := 2020, week := 2, team1 := "Chicago Bears", team2 := "Detroit Lions" } ]

def c3row : Row :=
  { team1_abbrev := "KAN", team2_abbrev := "PHI", weekNumeric := false,
    elo1_pre := some (.num 1400), elo2_pre := some (.num 1300) }

def c7row : Row :=
  { team1_abbrev := "NWE", team2_abbrev := "NYJ",
    elo1_pre := some (.num 1300), elo2_pre := some (.num 1300) }

def c6row : Row :=
  { team1_abbrev := "DAL", team2_abbrev := "NYG",
    score1 := .num 24, score2 := .num 17,
    elo1_pre := some (.num 1300), elo2_pre := some (.num 1300),
    elo_diff := some (.num 48), elo_prob1 := some (.num 0.5687),
    elo_prob2 := some (.num 0.4313) }

def c5row : Row :=
  { team1_abbrev := "CIN", team2_abbrev := "CLE",
    score1 := .num 24, score2 := .num 17,
    elo1_pre := some (.num 300), elo2_pre := some (.num 2500),
    elo_diff := some (.num (-2200)), elo_prob1 := some (.num 0.9) }

def c4rowA : Row :=
  { team1_abbrev := "BUF", team2_abbrev := "MIA",
    score1 := .nan, score2 := .num 17,
    elo1_pre := some (.num 1320), elo2_pre := some (.num 1280),
    elo_diff := some (.num 48), elo_prob1 := some (.num 0.6) }

def c4rowB : Row :=
  { team1_abbrev := "BUF", team2_abbrev := "MIA",
    score1 := .num 24, score2 := .nan,
    elo1_pre := some (.num 1320), elo2_pre := some (.num 1280),
    elo_diff := some (.num 48), elo_prob1 := some (.num 0.6) }

def c8played : Row :=
  { team1_abbrev := "DAL", team2_abbrev := "PHI",
    score1 := .num 24, score2 := .num 17 }

def c8unplayed : Row :=
  { team1_abbrev := "NYG", team2_abbrev := "WAS",
    score1 := .nan, score2 := .nan }

@[simp] theorem NpFloat.num_add_num (x y : Real) :
    NpFloat.num x + NpFloat.num y = NpFloat.num (x + y) := rfl

@[simp] theorem NpFloat.neg_num (x : Real) : -NpFloat.num x = NpFloat.num (-x) := rfl

@[simp] theorem NpFloat.num_sub_num (x y : Real) :
    NpFloat.num x - NpFloat.num y = NpFloat.num (x - y) := by
  show NpFloat.sub _ _ = _
  simp [NpFloat.sub, NpFloat.neg, NpFloat.add]
  ring_nf

@[simp] theorem NpFloat.num_mul_num (x y : Real) :
    NpFloat.num x * NpFloat.num y = NpFloat.num (x * y) := rfl

theorem NpFloat.num_div_num (x y : Real) (hy : y ≠ 0) :
    NpFloat.num x / NpFloat.num y = NpFloat.num (x / y) := by
  show NpFloat.div _ _ = _
  simp [NpFloat.div, hy]

theorem NpFloat.num_div_zero_pos (x : Real) (hx : 0 < x) :
    NpFloat.num x / NpFloat.num 0 = NpFloat.inf := by
  show NpFloat.div _ _ = _
  simp [NpFloat.div, hx, ne_of_gt hx]

theorem NpFloat.zero_div_zero : NpFloat.num 0 / NpFloat.num 0 = NpFloat.nan := by
  show NpFloat.div _ _ = _
  simp [NpFloat.div]

@[simp] theorem NpFloat.abs_num (x : Real) : (NpFloat.num x).abs = NpFloat.num |x| := rfl

theorem NpFloat.log_num_pos (x : Real) (hx : 0 < x) :
    (NpFloat.num x).log = NpFloat.num (Real.log x) := by
  simp [NpFloat.log, hx]

@[simp] theorem NpFloat.tenPow_num (x : Real) :
    (NpFloat.num x).tenPow = NpFloat.num ((10 : Real) ^ x) := rfl

@[simp] theorem NpFloat.isnull_num (x : Real) : (NpFloat.num x).isnull = false := rfl

@[simp] theorem NpFloat.isnull_inf : NpFloat.inf.isnull = false := rfl

@[simp] theorem NpFloat.isnull_nan : NpFloat.nan.isnull = true := rfl

theorem NpFloat.fgt_num_num (x y : Real) :
    NpFloat.fgt (NpFloat.num x) (NpFloat.num y) = if y < x then true else false := rfl

theorem NpFloat.feq_num_num (x y : Real) :
    NpFloat.feq (NpFloat.num x) (NpFloat.num y) = if x = y then true else false := rfl

@[simp] theorem NpFloat.fgt_nan_left (b : NpFloat) : NpFloat.fgt NpFloat.nan b = false := by
  cases b <;> rfl

@[simp] theorem NpFloat.feq_nan_left (b : NpFloat) : NpFloat.feq NpFloat.nan b = false := by
  cases b <;> rfl

@[simp] theorem NpFloat.num_add_nan (x : Real) :
    NpFloat.num x + NpFloat.nan = NpFloat.nan := rfl

@[simp] theorem NpFloat.nan_add (b : NpFloat) : NpFloat.nan + b = NpFloat.nan := by
  show NpFloat.add _ _ = _
  cases b <;> rfl

@[simp] theorem NpFloat.num_sub_nan (x : Real) :
    NpFloat.num x - NpFloat.nan = NpFloat.nan := rfl

@[simp] theorem NpFloat.nan_sub (b : NpFloat) : NpFloat.nan - b = NpFloat.nan := by
  show NpFloat.sub _ _ = _
  cases b <;> rfl

@[simp] theorem NpFloat.abs_nan : NpFloat.nan.abs = NpFloat.nan := rfl

@[simp] theorem NpFloat.log_nan : NpFloat.nan.log = NpFloat.nan := rfl

@[simp] theorem NpFloat.nan_mul (b : NpFloat) : NpFloat.nan * b = NpFloat.nan := by
  show NpFloat.mul _ _ = _
  cases b <;> rfl

@[simp] theorem NpFloat.mul_nan (a : NpFloat) : a * NpFloat.nan = NpFloat.nan := by
  show NpFloat.mul _ _ = _
  cases a <;> rfl

@[simp] theorem NpFloat.nan_div (b : NpFloat) : NpFloat.nan / b = NpFloat.nan := by
  show NpFloat.div _ _ = _
  cases b <;> rfl

theorem probChain (X : Real) :
    (NpFloat.num 1) / ((NpFloat.num X / NpFloat.num (-400)).tenPow + NpFloat.num 1) =
      NpFloat.num (1 / ((10 : Real) ^ (X / (-400)) + 1)) := by
  have hpow : (0 : Real) < (10 : Real) ^ (X / (-400)) :=
    Real.rpow_pos_of_pos (by norm_num) _
  rw [NpFloat.num_div_num X (-400) (by norm_num), NpFloat.tenPow_num,
    NpFloat.num_add_num, NpFloat.num_div_num _ _ (by linarith)]

theorem next_elo_prob_eval (homefield travel rested playoffs elo2points
    p1 p2 t1 t2 : Real) (r : Row)
    (h1 : r.elo1_pre = some (.num p1)) (h2 : r.elo2_pre = some (.num p2))
    (h3 : r.travel1 = .num t1) (h4 : r.travel2 = .num t2) :
    (next_elo_prob homefield travel rested playoffs elo2points r).elo_diff =
        some (.num (eloDiffVal homefield travel rested playoffs p1 p2 t1 t2
          r.rested1 r.rested2 r.weekNumeric)) ∧
    (next_elo_prob homefield travel rested playoffs elo2points r).point_spread =
        some (.num (eloDiffVal homefield travel rested playoffs p1 p2 t1 t2
          r.rested1 r.rested2 r.weekNumeric * elo2points)) ∧
    (next_elo_prob homefield travel rested playoffs elo2points r).elo_prob1 =
        some (.num (1 / ((10 : Real) ^ (eloDiffVal homefield travel rested playoffs
          p1 p2 t1 t2 r.rested1 r.rested2 r.weekNumeric / (-400)) + 1))) ∧
    (next_elo_prob homefield travel rested playoffs elo2points r).elo_prob2 =
        some (.num (1 - 1 / ((10 : Real) ^ (eloDiffVal homefield travel rested playoffs
          p1 p2 t1 t2 r.rested1 r.rested2 r.weekNumeric / (-400)) + 1))) := by
  cases hr1 : r.rested1 <;> cases hr2 : r.rested2 <;> cases hwk : r.weekNumeric <;>
    simp [next_elo_prob, eloDiffVal, h1, h2, h3, h4, hr1, hr2, hwk, cellVal, probChain]

/-- C1: for a team whose most recent prior game carries a committed
post-game rating R from season S, the pre-game rating computed for the
next game is R + (1505 - R) * regress_pct when that game is in season
S + 1, and R unchanged when it is in season S. -/
theorem c1_season_regression (init_elo regress_pct R : Real) (S : Int)
    (prior : List Row) (team : String) (g : Row)
    (hprev : prevGameFor team prior = some g)
    (hpost : sidePost g team = some (.num R))
    (hseason : g.season = S) :
    next_init_elo_team init_elo regress_pct prior (S + 1) team =
      .num (R + (1505 - R) * regress_pct) ∧
    next_init_elo_team init_elo regress_pct prior S team = .num R := by
  constructor
  · simp [next_init_elo_team, hprev, hpost, hseason, cellNull, cellVal]
  · simp [next_init_elo_team, hprev, hpost, hseason, cellNull, cellVal]
    rw [if_neg (by omega), if_neg (by omega)]

/-- Witness for C1 at a concrete one-game history. -/
theorem c1_witness :
    prevGameFor "GNB" [c1row] = some c1row ∧
    sidePost c1row "GNB" = some (.num 1400) ∧
    next_init_elo_team 1300 0.333 [c1row] (2020 + 1) "GNB" =
      .num (1400 + (1505 - 1400) * 0.333) ∧
    next_init_elo_team 1300 0.333 [c1row] 2020 "GNB" = .num 1400 := by
  refine ⟨rfl, rfl, ?_, ?_⟩
  · exact (c1_season_regression 1300 0.333 1400 2020 [c1row] "GNB" c1row rfl rfl rfl).1
  · exact (c1_season_regression 1300 0.333 1400 2020 [c1row] "GNB" c1row rfl rfl rfl).2

/-- C2, failing input: on a schedule whose week-1 game features two teams
that do not play in week 2, add_rest marks every team of every game as
rested, including both teams of the week-1 game, because the final
astype(bool) converts the never-assigned NaN flags to True before
fillna(False) runs. -/
theorem c2_add_rest_marks_week1_rested :
    (add_rest c2sched).map (fun g => (g.week, g.rested1, g.rested2)) =
      [(1, some true, some true), (2, some true, some true)] := by decide

/-- C9: across a season boundary (current season strictly greater than the
season of the previous appearance), the pre-game QB value is regressed
toward the league average exactly when the count of prior appearances is
at least 10 and at most 100; otherwise the carried-forward value is left
unregressed. -/
theorem c9_qb_regression_window (regress_pct avgValue prevPost : Real)
    (season prevSeason : Int) (c : Nat) (h : prevSeason < season) :
    (10 ≤ c ∧ c ≤ 100 →
      qb_pre_value regress_pct season prevSeason c prevPost avgValue =
        (1 - regress_pct) * prevPost + regress_pct * avgValue) ∧
    (¬ (10 ≤ c ∧ c ≤ 100) →
      qb_pre_value regress_pct season prevSeason c prevPost avgValue = prevPost) := by
  constructor
  · intro hc
    rw [qb_pre_value, if_pos ⟨h, hc.1, hc.2⟩]
  · intro hc
    rw [qb_pre_value, if_neg (by tauto)]

/-- Witness for C9: a 50-game quarterback is regressed, a 5-game
quarterback is not. -/
theorem c9_witness :
    qb_pre_value 0.25 2021 2020 50 8 4 = (1 - 0.25) * 8 + 0.25 * 4 ∧
    qb_pre_value 0.25 2021 2020 5 8 4 = 8 := by
  constructor
  · exact (c9_qb_regression_window 0.25 4 8 2021 2020 50 (by norm_num)).1 (by norm_num)
  · exact (c9_qb_regression_window 0.25 4 8 2021 2020 5 (by norm_num)).2 (by norm_num)

/-- C3, counterexample: in a playoff game with ratings 1400 and 1300, no
travel and no rest, the source stores elo_diff = (100 + 48) * 1.2 = 177.6,
while scaling the pre-homefield differential as the claim states would
give 100 * 1.2 + 48 = 168. -/
theorem c3_counterexample :
    (next_elo_prob 48 0.004 25 1.2 0.04 c3row).elo_diff = some (.num 177.6) ∧
    claimedEloDiff 48 0.004 25 1.2 c3row = .num 168 ∧
    NpFloat.num (177.6 : Real) ≠ NpFloat.num 168 := by
  refine ⟨?_, ?_, ?_⟩
  · simp [next_elo_prob, c3row, cellVal]
    norm_num
  · simp [claimedEloDiff, c3row, cellVal]
    norm_num
  · simp only [ne_eq, NpFloat.num.injEq]
    norm_num

/-- C3 as amended: for a playoff game (non-numeric week tag) the playoff
factor multiplies the fully accumulated differential, after the
homefield, travel and rest terms have been added, and the scaled value is
what feeds the point spread and the win probability. -/
theorem c3_amended (homefield travel rested playoffs elo2points
    p1 p2 t1 t2 : Real) (r : Row)
    (h1 : r.elo1_pre = some (.num p1)) (h2 : r.elo2_pre = some (.num p2))
    (h3 : r.travel1 = .num t1) (h4 : r.travel2 = .num t2)
    (hwk : r.weekNumeric = false) :
    (next_elo_prob homefield travel rested playoffs elo2points r).elo_diff =
      some (.num ((p1 - p2 + homefield + travel * (t2 - t1)
        + (if r.rested1 then rested else 0)
        - (if r.rested2 then rested else 0)) * playoffs)) ∧
    (next_elo_prob homefield travel rested playoffs elo2points r).point_spread =
      some (.num ((p1 - p2 + homefield + travel * (t2 - t1)
        + (if r.rested1 then rested else 0)
        - (if r.rested2 then rested else 0)) * playoffs * elo2points)) ∧
    (next_elo_prob homefield travel rested playoffs elo2points r).elo_prob1 =
      some (.num (1 / ((10 : Real) ^ ((p1 - p2 + homefield + travel * (t2 - t1)
        + (if r.rested1 then rested else 0)
        - (if r.rested2 then rested else 0)) * playoffs / (-400)) + 1))) := by
  obtain ⟨hd, hs, hp, _⟩ :=
    next_elo_prob_eval homefield travel rested playoffs elo2points p1 p2 t1 t2 r h1 h2 h3 h4
  have hA : eloDiffVal homefield travel rested playoffs p1 p2 t1 t2
      r.rested1 r.rested2 r.weekNumeric =
      (p1 - p2 + homefield + travel * (t2 - t1)
        + (if r.rested1 then rested else 0)
        - (if r.rested2 then rested else 0)) * playoffs := by
    cases hr1 : r.rested1 <;> cases hr2 : r.rested2 <;>
      simp [eloDiffVal, hwk, hr1, hr2] <;> ring
  exact ⟨by rw [hd, hA], by rw [hs, hA], by rw [hp, hA]⟩

/-- Witness for C3 as amended, at the concrete playoff matchup of
c3_counterexample. -/
theorem c3_witness :
    (next_elo_prob 48 0.004 25 1.2 0.04 c3row).elo_diff =
      some (.num ((1400 - 1300 + 48 + 0.004 * (0 - 0)
        + (if c3row.rested1 then 25 else 0)
        - (if c3row.rested2 then 25 else 0)) * 1.2)) := by
  exact (c3_amended 48 0.004 25 1.2 0.04 1400 1300 0 0 c3row rfl rfl rfl rfl rfl).1

/-- C7: the two stored win probabilities of a game with finite inputs sum
to exactly one, and a zero adjusted differential gives a home probability
of exactly one half. -/
theorem c7_probability_symmetry (homefield travel rested playoffs elo2points
    p1 p2 t1 t2 : Real) (r : Row)
    (h1 : r.elo1_pre = some (.num p1)) (h2 : r.elo2_pre = some (.num p2))
    (h3 : r.travel1 = .num t1) (h4 : r.travel2 = .num t2) :
    ∃ q : Real,
      (next_elo_prob homefield travel rested playoffs elo2points r).elo_prob1 =
        some (.num q) ∧
      (next_elo_prob homefield travel rested playoffs elo2points r).elo_prob2 =
        some (.num (1 - q)) ∧
      NpFloat.num q + NpFloat.num (1 - q) = .num 1 ∧
      ((next_elo_prob homefield travel rested playoffs elo2points r).elo_diff =
          some (.num 0) →
        (next_elo_prob homefield travel rested playoffs elo2points r).elo_prob1 =
          some (.num (1 / 2))) := by
  obtain ⟨hd, _, hp, hq⟩ :=
    next_elo_prob_eval homefield travel rested playoffs elo2points p1 p2 t1 t2 r h1 h2 h3 h4
  refine ⟨_, hp, hq, by simp, ?_⟩
  intro h0
  rw [hd] at h0
  have hD : eloDiffVal homefield travel rested playoffs p1 p2 t1 t2
      r.rested1 r.rested2 r.weekNumeric = 0 := by
    simpa using h0
  rw [hp, hD]
  norm_num

/-- Witness for C7 at a concrete even matchup with no homefield, travel
or rest terms: the adjusted differential is zero and the probability is
exactly one half. -/
theorem c7_witness :
    ∃ q : Real,
      (next_elo_prob 0 0.004 25 1.2 0.04 c7row).elo_prob1 = some (.num q) ∧
      (next_elo_prob 0 0.004 25 1.2 0.04 c7row).elo_prob2 = some (.num (1 - q)) ∧
      NpFloat.num q + NpFloat.num (1 - q) = .num 1 ∧
      (next_elo_prob 0 0.004 25 1.2 0.04 c7row).elo_prob1 = some (.num (1 / 2)) := by
  obtain ⟨q, hp, hq, hsum, himp⟩ :=
    c7_probability_symmetry 0 0.004 25 1.2 0.04 1300 1300 0 0 c7row rfl rfl rfl rfl
  refine ⟨q, hp, hq, hsum, himp ?_⟩
  have := (next_elo_prob_eval 0 0.004 25 1.2 0.04 1300 1300 0 0 c7row rfl rfl rfl rfl).1
  rw [this]
  simp [eloDiffVal, c7row]

/-- C10: for finite inputs the stored home win probability lies strictly
between zero and one. -/
theorem c10_prob_nondegenerate (homefield travel rested playoffs elo2points
    p1 p2 t1 t2 : Real) (r : Row)
    (h1 : r.elo1_pre = some (.num p1)) (h2 : r.elo2_pre = some (.num p2))
    (h3 : r.travel1 = .num t1) (h4 : r.travel2 = .num t2) :
    ∃ q : Real,
      (next_elo_prob homefield travel rested playoffs elo2points r).elo_prob1 =
        some (.num q) ∧ 0 < q ∧ q < 1 := by
  obtain ⟨_, _, hp, _⟩ :=
    next_elo_prob_eval homefield travel rested playoffs elo2points p1 p2 t1 t2 r h1 h2 h3 h4
  refine ⟨_, hp, ?_, ?_⟩
  · have hpow : (0 : Real) < (10 : Real) ^ (eloDiffVal homefield travel rested playoffs
        p1 p2 t1 t2 r.rested1 r.rested2 r.weekNumeric / (-400)) :=
      Real.rpow_pos_of_pos (by norm_num) _
    positivity
  · have hpow : (0 : Real) < (10 : Real) ^ (eloDiffVal homefield travel rested playoffs
        p1 p2 t1 t2 r.rested1 r.rested2 r.weekNumeric / (-400)) :=
      Real.rpow_pos_of_pos (by norm_num) _
    rw [div_lt_one (by linarith)]
    linarith

/-- Witness for C10 at a concrete matchup. -/
theorem c10_witness :
    ∃ q : Real,
      (next_elo_prob 48 0.004 25 1.2 0.04 c7row).elo_prob1 = some (.num q) ∧
      0 < q ∧ q < 1 :=
  c10_prob_nondegenerate 48 0.004 25 1.2 0.04 1300 1300 0 0 c7row rfl rfl rfl rfl

theorem delta_symm_core (d : NpFloat) (p1 p2 : Real) :
    (NpFloat.num p1 + d) - NpFloat.num p1 = -((NpFloat.num p2 - d) - NpFloat.num p2) := by
  cases d with
  | num v =>
      show NpFloat.sub _ _ = NpFloat.neg (NpFloat.sub (NpFloat.sub _ _) _)
      simp [NpFloat.sub, NpFloat.neg, NpFloat.add]
  | inf => rfl
  | neginf => rfl
  | nan => rfl

/-- C6: for a completed game with finite committed inputs, the home
rating change equals the exact negative of the away rating change, and
both post-game ratings are committed. -/
theorem c6_delta_symmetry (k s1 s2 q d p1 p2 : Real) (r : Row)
    (hs1 : r.score1 = .num s1) (hs2 : r.score2 = .num s2)
    (hp1 : r.elo1_pre = some (.num p1)) (hp2 : r.elo2_pre = some (.num p2))
    (hq : r.elo_prob1 = some (.num q)) (hd : r.elo_diff = some (.num d)) :
    ∃ x y : NpFloat,
      (next_elo_delta k r).elo1_post = some x ∧
      (next_elo_delta k r).elo2_post = some y ∧
      x - NpFloat.num p1 = -(y - NpFloat.num p2) := by
  rw [next_elo_delta, hs1]
  simp only [NpFloat.isnull_num, Bool.false_eq_true, if_false]
  refine ⟨_, _, rfl, rfl, ?_⟩
  rw [hp1, hp2]
  exact delta_symm_core _ p1 p2

/-- Witness for C6 at a concrete completed game. -/
theorem c6_witness :
    ∃ x y : NpFloat,
      (next_elo_delta 20 c6row).elo1_post = some x ∧
      (next_elo_delta 20 c6row).elo2_post = some y ∧
      x - NpFloat.num 1300 = -(y - NpFloat.num 1300) :=
  c6_delta_symmetry 20 24 17 0.5687 48 1300 1300 c6row rfl rfl rfl rfl rfl rfl

/-- C5, counterexample: with an adjusted differential of exactly -2200
the denominator of the margin-of-victory formula is zero, the expression
evaluates to positive infinity for a 7-point margin, and the source
commits that infinity unchanged -- pd.isnull is false on infinity, so the
claimed substitution of 0.0 does not happen. -/
theorem c5_counterexample :
    (next_elo_delta 20 c5row).mov_multiplier = some NpFloat.inf ∧
    NpFloat.inf ≠ NpFloat.num 0 := by
  constructor
  · have hm : ((NpFloat.num (24 : Real) - NpFloat.num 17).abs + NpFloat.num 1).log
        * NpFloat.num 2.2
        / (NpFloat.num (-2200 : Real) * NpFloat.num 0.001 + NpFloat.num 2.2) =
        NpFloat.inf := by
      rw [NpFloat.num_sub_num, show (24 : Real) - 17 = 7 by norm_num, NpFloat.abs_num,
        show |(7 : Real)| = 7 by norm_num, NpFloat.num_add_num,
        show (7 : Real) + 1 = 8 by norm_num, NpFloat.log_num_pos 8 (by norm_num),
        NpFloat.num_mul_num, NpFloat.num_mul_num, NpFloat.num_add_num,
        show (-2200 : Real) * 0.001 + 2.2 = 0 by norm_num]
      exact NpFloat.num_div_zero_pos _
        (mul_pos (Real.log_pos (by norm_num)) (by norm_num))
    rw [next_elo_delta]
    simp only [c5row, NpFloat.isnull_num, Bool.false_eq_true, if_false, cellVal, hm,
      NpFloat.isnull_inf]
  · intro h
    exact NpFloat.noConfusion h

/-- C5 as amended: for a completed game the committed margin-of-victory
multiplier equals ln(|score_diff| + 1) * 2.2 / (diff * 0.001 + 2.2) when
the denominator is nonzero; when the denominator is zero, a zero margin
makes the expression NaN and 0.0 is committed instead, but a nonzero
margin makes it positive infinity and the infinity is committed
unchanged. -/
theorem c5_amended (k s1 s2 d : Real) (r : Row)
    (hs1 : r.score1 = .num s1) (hs2 : r.score2 = .num s2)
    (hd : r.elo_diff = some (.num d)) :
    (d * 0.001 + 2.2 ≠ 0 →
      (next_elo_delta k r).mov_multiplier =
        some (.num (Real.log (|s1 - s2| + 1) * 2.2 / (d * 0.001 + 2.2)))) ∧
    (d * 0.001 + 2.2 = 0 → s1 = s2 →
      (next_elo_delta k r).mov_multiplier = some (.num 0)) ∧
    (d * 0.001 + 2.2 = 0 → s1 ≠ s2 →
      (next_elo_delta k r).mov_multiplier = some NpFloat.inf) := by
  have hcommit : (next_elo_delta k r).mov_multiplier =
      some (if (NpFloat.num (Real.log (|s1 - s2| + 1) * 2.2)
            / NpFloat.num (d * 0.001 + 2.2)).isnull = true
        then NpFloat.num 0
        else NpFloat.num (Real.log (|s1 - s2| + 1) * 2.2)
            / NpFloat.num (d * 0.001 + 2.2)) := by
    rw [next_elo_delta, hs1]
    simp only [NpFloat.isnull_num, Bool.false_eq_true, if_false, hs2, hd, cellVal,
      NpFloat.num_sub_num, NpFloat.abs_num, NpFloat.num_add_num,
      NpFloat.log_num_pos _ (by positivity : (0 : Real) < |s1 - s2| + 1),
      NpFloat.num_mul_num]
  refine ⟨?_, ?_, ?_⟩
  · intro hden
    rw [hcommit, NpFloat.num_div_num _ _ hden]
    simp only [NpFloat.isnull_num, Bool.false_eq_true, if_false]
  · intro h0 heq
    rw [hcommit, h0, show Real.log (|s1 - s2| + 1) * 2.2 = 0 by
      rw [heq, sub_self, abs_zero, zero_add, Real.log_one, zero_mul],
      NpFloat.zero_div_zero]
    simp only [NpFloat.isnull_nan, if_true]
  · intro h0 hne
    have hpos : (0 : Real) < Real.log (|s1 - s2| + 1) * 2.2 := by
      have h1 : (0 : Real) < |s1 - s2| := abs_pos.mpr (sub_ne_zero.mpr hne)
      exact mul_pos (Real.log_pos (by linarith)) (by norm_num)
    rw [hcommit, h0, NpFloat.num_div_zero_pos _ hpos]
    simp only [NpFloat.isnull_inf, Bool.false_eq_true, if_false]

/-- Witness for C5 as amended at a concrete completed game with a nonzero
denominator. -/
theorem c5_witness :
    (48 : Real) * 0.001 + 2.2 ≠ 0 ∧
    (next_elo_delta 20 c6row).mov_multiplier =
      some (.num (Real.log (|(24 : Real) - 17| + 1) * 2.2 / (48 * 0.001 + 2.2))) :=
  ⟨by norm_num, (c5_amended 20 24 17 48 c6row rfl rfl rfl).1 (by norm_num)⟩

/-- C4, counterexample: a record with only the home score null is passed
through unchanged (treated as unplayed, no error), and a record with only
the away score null is silently processed -- NaN propagates into the
score differential, the NaN multiplier is replaced by 0.0, and post-game
ratings are committed equal to the pre-game ratings.  Nothing is
rejected. -/
theorem c4_counterexample :
    next_elo_delta 20 c4rowA = c4rowA ∧
    (next_elo_delta 20 c4rowB).elo_delta = some (.num 0) ∧
    (next_elo_delta 20 c4rowB).elo1_post = some (.num 1320) := by
  refine ⟨rfl, ?_, ?_⟩
  · rw [next_elo_delta]
    simp only [c4rowB, NpFloat.isnull_num, Bool.false_eq_true, if_false, cellVal,
      NpFloat.num_sub_nan, NpFloat.abs_nan, NpFloat.nan_add, NpFloat.log_nan,
      NpFloat.nan_mul, NpFloat.nan_div, NpFloat.isnull_nan, if_true,
      NpFloat.fgt_nan_left, NpFloat.feq_nan_left, boolFloat,
      NpFloat.num_mul_num, NpFloat.num_add_num, NpFloat.num.injEq]
    norm_num
  · rw [next_elo_delta]
    simp only [c4rowB, NpFloat.isnull_num, Bool.false_eq_true, if_false, cellVal,
      NpFloat.num_sub_nan, NpFloat.abs_nan, NpFloat.nan_add, NpFloat.log_nan,
      NpFloat.nan_mul, NpFloat.nan_div, NpFloat.isnull_nan, if_true,
      NpFloat.fgt_nan_left, NpFloat.feq_nan_left, boolFloat,
      NpFloat.num_mul_num, NpFloat.num_add_num, NpFloat.num.injEq]
    norm_num

/-- C4 as amended: processing never rejects a record with exactly one
null score.  A null home score makes the record be passed through
unchanged (treated as unplayed) even when the away score is present; a
present home score with a null away score is processed: NaN propagates
into the score differential, the NaN margin multiplier is replaced by
0.0, the rating delta is zero, and the post-game ratings are committed
equal to the pre-game ratings. -/
theorem c4_amended (k s1 q p1 p2 : Real) (r : Row) :
    (r.score1 = .nan → next_elo_delta k r = r) ∧
    (r.score1 = .num s1 → r.score2 = .nan → r.elo_prob1 = some (.num q) →
      r.elo1_pre = some (.num p1) → r.elo2_pre = some (.num p2) →
      (next_elo_delta k r).score_diff = some .nan ∧
      (next_elo_delta k r).mov_multiplier = some (.num 0) ∧
      (next_elo_delta k r).elo_delta = some (.num 0) ∧
      (next_elo_delta k r).elo1_post = some (.num p1) ∧
      (next_elo_delta k r).elo2_post = some (.num p2)) := by
  constructor
  · intro h
    rw [next_elo_delta, h]
    simp only [NpFloat.isnull_nan, if_true]
  · intro hs1 hs2 hq hp1 hp2
    rw [next_elo_delta, hs1]
    simp only [NpFloat.isnull_num, Bool.false_eq_true, if_false, hs2, hq, hp1, hp2,
      cellVal, NpFloat.num_sub_nan, NpFloat.abs_nan, NpFloat.nan_add, NpFloat.log_nan,
      NpFloat.nan_mul, NpFloat.nan_div, NpFloat.isnull_nan, if_true,
      NpFloat.fgt_nan_left, NpFloat.feq_nan_left, boolFloat, if_false,
      NpFloat.num_mul_num, NpFloat.num_add_num, NpFloat.num_sub_num,
      NpFloat.num.injEq]
    simp [mul_zero, zero_mul, add_zero, sub_zero]

/-- Witness for C4 as amended, at the two concrete half-null records of
the counterexample. -/
theorem c4_witness :
    next_elo_delta 20 c4rowA = c4rowA ∧
    (next_elo_delta 20 c4rowB).elo1_post = some (.num 1320) ∧
    (next_elo_delta 20 c4rowB).elo2_post = some (.num 1280) := by
  refine ⟨(c4_amended 20 24 0.6 1320 1280 c4rowA).1 rfl, ?_, ?_⟩
  · exact ((c4_amended 20 24 0.6 1320 1280 c4rowB).2 rfl rfl rfl rfl rfl).2.2.2.1
  · exact ((c4_amended 20 24 0.6 1320 1280 c4rowB).2 rfl rfl rfl rfl rfl).2.2.2.2

theorem processRow_unplayed (init_elo regress_pct homefield travel rested playoffs
    elo2points k_factor : Real) (prior : List Row) (r : Row)
    (hnull : r.score1.isnull = true) :
    (processRow init_elo regress_pct homefield travel rested playoffs
        elo2points k_factor prior r).score1 = r.score1 ∧
    (processRow init_elo regress_pct homefield travel rested playoffs
        elo2points k_factor prior r).score2 = r.score2 ∧
    (∃ a, (processRow init_elo regress_pct homefield travel rested playoffs
        elo2points k_factor prior r).elo1_pre = some a) ∧
    (∃ a, (processRow init_elo regress_pct homefield travel rested playoffs
        elo2points k_factor prior r).elo2_pre = some a) ∧
    (∃ a, (processRow init_elo regress_pct homefield travel rested playoffs
        elo2points k_factor prior r).elo_prob1 = some a) ∧
    (∃ a, (processRow init_elo regress_pct homefield travel rested playoffs
        elo2points k_factor prior r).elo_prob2 = some a) ∧
    (processRow init_elo regress_pct homefield travel rested playoffs
        elo2points k_factor prior r).elo1_post = r.elo1_post ∧
    (processRow init_elo regress_pct homefield travel rested playoffs
        elo2points k_factor prior r).elo2_post = r.elo2_post ∧
    (processRow init_elo regress_pct homefield travel rested playoffs
        elo2points k_factor prior r).elo_delta = r.elo_delta ∧
    (processRow init_elo regress_pct homefield travel rested playoffs
        elo2points k_factor prior r).score_diff = r.score_diff ∧
    (processRow init_elo regress_pct homefield travel rested playoffs
        elo2points k_factor prior r).forecast_delta = r.forecast_delta ∧
    (processRow init_elo regress_pct homefield travel rested playoffs
        elo2points k_factor prior r).mov_multiplier = r.mov_multiplier := by
  simp [processRow, next_elo_delta, next_elo_prob, next_init_elo, hnull]

theorem processRow_played (init_elo regress_pct homefield travel rested playoffs
    elo2points k_factor : Real) (prior : List Row) (r : Row)
    (hnull : r.score1.isnull = false) :
    (processRow init_elo regress_pct homefield travel rested playoffs
        elo2points k_factor prior r).score1 = r.score1 ∧
    (processRow init_elo regress_pct homefield travel rested playoffs
        elo2points k_factor prior r).score2 = r.score2 ∧
    (∃ a, (processRow init_elo regress_pct homefield travel rested playoffs
        elo2points k_factor prior r).elo1_pre = some a) ∧
    (∃ a, (processRow init_elo regress_pct homefield travel rested playoffs
        elo2points k_factor prior r).elo2_pre = some a) ∧
    (∃ a, (processRow init_elo regress_pct homefield travel rested playoffs
        elo2points k_factor prior r).elo_prob1 = some a) ∧
    (∃ a, (processRow init_elo regress_pct homefield travel rested playoffs
        elo2points k_factor prior r).elo_prob2 = some a) ∧
    (∃ a, (processRow init_elo regress_pct homefield travel rested playoffs
        elo2points k_factor prior r).elo1_post = some a) ∧
    (∃ a, (processRow init_elo regress_pct homefield travel rested playoffs
        elo2points k_factor prior r).elo2_post = some a) ∧
    (∃ a, (processRow init_elo regress_pct homefield travel rested playoffs
        elo2points k_factor prior r).elo_delta = some a) ∧
    (∃ a, (processRow init_elo regress_pct homefield travel rested playoffs
        elo2points k_factor prior r).score_diff = some a) ∧
    (∃ a, (processRow init_elo regress_pct homefield travel rested playoffs
        elo2points k_factor prior r).forecast_delta = some a) ∧
    (∃ a, (processRow init_elo regress_pct homefield travel rested playoffs
        elo2points k_factor prior r).mov_multiplier = some a) := by
  simp [processRow, next_elo_delta, next_elo_prob, next_init_elo, hnull]

theorem run_elo_aux_c8 (init_elo regress_pct homefield travel rested playoffs
    elo2points k_factor : Real) :
    ∀ (sched prior : List Row),
      (∀ r ∈ sched, r.score1.isnull = r.score2.isnull) →
      (∀ r ∈ sched, r.elo1_post = none ∧ r.elo2_post = none ∧ r.elo_delta = none ∧
        r.score_diff = none ∧ r.forecast_delta = none ∧ r.mov_multiplier = none) →
      ∀ g ∈ run_elo_aux init_elo regress_pct homefield travel rested playoffs
          elo2points k_factor prior sched,
        ((g.elo1_post ≠ none ∧ g.elo2_post ≠ none ∧ g.elo_delta ≠ none ∧
          g.score_diff ≠ none ∧ g.forecast_delta ≠ none ∧ g.mov_multiplier ≠ none) ↔
          (g.score1.isnull = false ∧ g.score2.isnull = false)) ∧
        (g.score1.isnull = true →
          g.elo1_post = none ∧ g.elo2_post = none ∧ g.elo_delta = none ∧
          g.score_diff = none ∧ g.forecast_delta = none ∧ g.mov_multiplier = none) ∧
        (g.elo1_pre ≠ none ∧ g.elo2_pre ≠ none ∧ g.elo_prob1 ≠ none ∧
          g.elo_prob2 ≠ none) := by
  intro sched
  induction sched with
  | nil =>
      intro prior h1 h2 g hg
      simp [run_elo_aux] at hg
  | cons r rest ih =>
      intro prior h1 h2 g hg
      rw [run_elo_aux, List.mem_cons] at hg
      rcases hg with rfl | hg'
      · by_cases hnull : r.score1.isnull = true
        · obtain ⟨hsc1, hsc2, ⟨a1, he1⟩, ⟨a2, he2⟩, ⟨a3, he3⟩, ⟨a4, he4⟩,
            hpost1, hpost2, hdel, hsd, hfd, hmov⟩ :=
            processRow_unplayed init_elo regress_pct homefield travel rested playoffs
              elo2points k_factor prior r hnull
          obtain ⟨f1, f2, f3, f4, f5, f6⟩ := h2 r (List.mem_cons_self r rest)
          refine ⟨?_, ?_, ?_⟩
          · constructor
            · intro hL
              exact absurd (hpost1.trans f1) hL.1
            · intro hR
              rw [hsc1, hnull] at hR
              exact absurd hR.1 (by simp)
          · intro _
            exact ⟨hpost1.trans f1, hpost2.trans f2, hdel.trans f3,
              hsd.trans f4, hfd.trans f5, hmov.trans f6⟩
          · exact ⟨by rw [he1]; simp, by rw [he2]; simp, by rw [he3]; simp,
              by rw [he4]; simp⟩
        · rw [Bool.not_eq_true] at hnull
          obtain ⟨hsc1, hsc2, ⟨a1, he1⟩, ⟨a2, he2⟩, ⟨a3, he3⟩, ⟨a4, he4⟩,
            ⟨b1, hb1⟩, ⟨b2, hb2⟩, ⟨b3, hb3⟩, ⟨b4, hb4⟩, ⟨b5, hb5⟩, ⟨b6, hb6⟩⟩ :=
            processRow_played init_elo regress_pct homefield travel rested playoffs
              elo2points k_factor prior r hnull
          refine ⟨?_, ?_, ?_⟩
          · constructor
            · intro _
              refine ⟨by rw [hsc1]; exact hnull, ?_⟩
              rw [hsc2, ← h1 r (List.mem_cons_self r rest)]
              exact hnull
            · intro _
              exact ⟨by rw [hb1]; simp, by rw [hb2]; simp, by rw [hb3]; simp,
                by rw [hb4]; simp, by rw [hb5]; simp, by rw [hb6]; simp⟩
          · intro h
            rw [hsc1, hnull] at h
            exact absurd h (by simp)
          · exact ⟨by rw [he1]; simp, by rw [he2]; simp, by rw [he3]; simp,
              by rw [he4]; simp⟩
      · exact ih _ (fun x hx => h1 x (List.mem_cons_of_mem r hx))
          (fun x hx => h2 x (List.mem_cons_of_mem r hx)) g hg'

/-- C8: after the elo walk over a schedule whose rows satisfy the data
model invariant (both scores set or both null) and whose derived outcome
cells start unset, every row has its post-game derived fields present
exactly when both scores are present, an unplayed row retains every one
of its post-game derived fields null, and every row -- played or not --
carries pre-game ratings and win probabilities. -/
theorem c8_post_iff_scores (init_elo regress_pct homefield travel rested playoffs
    elo2points k_factor : Real) (sched : List Row)
    (h1 : ∀ r ∈ sched, r.score1.isnull = r.score2.isnull)
    (h2 : ∀ r ∈ sched, r.elo1_post = none ∧ r.elo2_post = none ∧ r.elo_delta = none ∧
      r.score_diff = none ∧ r.forecast_delta = none ∧ r.mov_multiplier = none) :
    ∀ g ∈ run_elo init_elo regress_pct homefield travel rested playoffs
        elo2points k_factor sched,
      ((g.elo1_post ≠ none ∧ g.elo2_post ≠ none ∧ g.elo_delta ≠ none ∧
        g.score_diff ≠ none ∧ g.forecast_delta ≠ none ∧ g.mov_multiplier ≠ none) ↔
        (g.score1.isnull = false ∧ g.score2.isnull = false)) ∧
      (g.score1.isnull = true →
        g.elo1_post = none ∧ g.elo2_post = none ∧ g.elo_delta = none ∧
        g.score_diff = none ∧ g.forecast_delta = none ∧ g.mov_multiplier = none) ∧
      (g.elo1_pre ≠ none ∧ g.elo2_pre ≠ none ∧ g.elo_prob1 ≠ none ∧
        g.elo_prob2 ≠ none) :=
  run_elo_aux_c8 init_elo regress_pct homefield travel rested playoffs
    elo2points k_factor sched [] h1 h2

/-- Witness for C8 on a concrete two-game schedule with one played and
one unplayed game. -/
theorem c8_witness :
    (∀ r ∈ [c8played, c8unplayed], r.score1.isnull = r.score2.isnull) ∧
    (∀ r ∈ [c8played, c8unplayed], r.elo1_post = none ∧ r.elo2_post = none ∧
      r.elo_delta = none ∧ r.score_diff = none ∧ r.forecast_delta = none ∧
      r.mov_multiplier = none) ∧
    ∀ g ∈ run_elo 1300 0.333 48 0.004 25 1.2 0.04 20 [c8played, c8unplayed],
      ((g.elo1_post ≠ none ∧ g.elo2_post ≠ none ∧ g.elo_delta ≠ none ∧
        g.score_diff ≠ none ∧ g.forecast_delta ≠ none ∧ g.mov_multiplier ≠ none) ↔
        (g.score1.isnull = false ∧ g.score2.isnull = false)) ∧
      (g.score1.isnull = true →
        g.elo1_post = none ∧ g.elo2_post = none ∧ g.elo_delta = none ∧
        g.score_diff = none ∧ g.forecast_delta = none ∧ g.mov_multiplier = none) ∧
      (g.elo1_pre ≠ none ∧ g.elo2_pre ≠ none ∧ g.elo_prob1 ≠ none ∧
        g.elo_prob2 ≠ none) := by
  refine ⟨?_, ?_, ?_⟩
  · simp [c8played, c8unplayed]
  · simp [c8played, c8unplayed]
  · exact c8_post_iff_scores 1300 0.333 48 0.004 25 1.2 0.04 20
      [c8played, c8unplayed] (by simp [c8played, c8unplayed])
      (by simp [c8played, c8unplayed])
